import Mathlib

/-!
# alexPavlikov/sso : the Auth service, its store stubs and the logger set-up

A shallow embedding of

* `internal/services/auth/auth.go`  (`New`, `Auth.Login`, `Auth.RegisterNewUser`, `Auth.IsAdmin`),
* `internal/storage/sqlite/sqlite.go` (the `Storage` methods),
* `internal/app/app.go` (`New`) and `cmd/sso/main.go` (`setupLogger`, the start of `main`).

Conventions.

* A Go `error` is a value of `GoError`; a nil error is `none : Option GoError`.
* A Go call that may panic yields a `Run`: either `returned v` or `panicked why`.
* A `*slog.Logger` is an `Option Logger`, `none` being the nil pointer.
* Collaborator interfaces (`UserSaver`, `UserProvider`, `AppProvider`) are records of
  functions over a store state `σ`; lookups read the state, `SaveUser` may change it.
* Library functions the service calls as package-level functions (`bcrypt`, `jwt`) are
  collected in `Libs` and passed explicitly; their results stand for what the call
  yields in the run at hand (salt and clock are theirs).
* Go `int`, `int64` and `time.Duration` are `Int` (64-bit target, where the
  conversions `int(id)` and `int64(userID)` change nothing).
-/

namespace sso

/-! ## Errors -/

/-- Package-level error variables; Go compares them by identity. -/
inductive Sentinel
  | authErrInvalidCredentials
  | authErrInvalidAppID
  | authErrUserExists
  | storageErrUserNotFound
  | storageErrUserExists
  | storageErrAppNotFound
  deriving DecidableEq, Repr

/-- Go error values: a package-level sentinel (identified by its variable, carrying its
text), an error of some library or backend (only its text matters), or the result of
`fmt.Errorf` with a `%w` verb (the formatted text and the wrapped error). -/
inductive GoError
  | sentinel (id : Sentinel) (msg : String)
  | foreign (msg : String)
  | wrap (msg : String) (inner : GoError)
  deriving DecidableEq, Repr

namespace GoError

/-- The `Error()` method. -/
def Error : GoError → String
  | sentinel _ msg => msg
  | foreign msg => msg
  | wrap msg _ => msg

/-- The function `errors.Unwrap`. -/
def Unwrap : GoError → Option GoError
  | wrap _ inner => some inner
  | _ => none

end GoError

/-- The function `errors.Is(err, target)` for a sentinel target: walk the `Unwrap` chain
looking for the target variable. -/
def errorsIs : GoError → Sentinel → Bool
  | .sentinel id _, t => id == t
  | .foreign _, _ => false
  | .wrap _ inner, t => errorsIs inner t

/-- The call `fmt.Errorf("%s" ++ sep ++ "%w", op, err)`: the text is `op`, the separator
and the text of `err`; the result unwraps to `err`. -/
def Errorf (op sep : String) (err : GoError) : GoError :=
  .wrap (op ++ sep ++ err.Error) err

/-- The variable `auth.ErrInvalidCredentials = errors.New("invalid credentials")`. -/
def ErrInvalidCredentials : GoError := .sentinel .authErrInvalidCredentials "invalid credentials"

/-- The variable `auth.ErrInvalidAppID = errors.New("invalid app id")`. -/
def ErrInvalidAppID : GoError := .sentinel .authErrInvalidAppID "invalid app id"

/-- The variable `auth.ErrUserExists = errors.New("user already exists")`. -/
def ErrUserExists : GoError := .sentinel .authErrUserExists "user already exists"

/-- The text `hay` contains the text `needle`. -/
def containsText (hay needle : String) : Prop :=
  ∃ pre post : String, hay = pre ++ needle ++ post

/-- The text `hay` begins with the text `lead`. -/
def beginsWith (hay lead : String) : Prop :=
  ∃ rest : String, hay = lead ++ rest

/-! ## Calls that may panic -/

/-- Outcome of running Go code that can panic. -/
inductive Run (α : Type)
  | returned (v : α)
  | panicked (why : String)
  deriving DecidableEq, Repr

namespace Run

/-- Sequencing: a panic stops the run. -/
def bind {α β : Type} (r : Run α) (f : α → Run β) : Run β :=
  match r with
  | returned v => f v
  | panicked why => panicked why

instance : Monad Run where
  pure := returned
  bind := bind

end Run

/-! ## Logging (`log/slog`) -/

/-- Output format of a handler: `slog.NewTextHandler` or `slog.NewJSONHandler`. -/
inductive HandlerKind
  | text
  | json
  deriving DecidableEq, Repr

/-- Minimum level of a handler: `slog.LevelDebug` or `slog.LevelInfo`. -/
inductive Level
  | debug
  | info
  deriving DecidableEq, Repr

/-- A logger made by `slog.New` over a handler writing to `os.Stdout`. -/
structure Logger where
  handler : HandlerKind
  level : Level
  deriving DecidableEq, Repr

/-- The text of the runtime panic raised by reading a field through a nil pointer. -/
def nilDeref : String := "runtime error: invalid memory address or nil pointer dereference"

/-- A logging method of `*slog.Logger` (`Info`, `Warn`, `Error`): it reads the
receiver's handler, so a nil receiver panics; the record written is not modelled. -/
def Logger.emit (l : Option Logger) (_msg : String) : Run Unit :=
  match l with
  | some _ => .returned ()
  | none => .panicked nilDeref

/-- The method `(*slog.Logger).With` with attributes: it copies the receiver, so a nil
receiver panics; otherwise a logger over the same handler kind and level. -/
def Logger.With (l : Option Logger) : Run (Option Logger) :=
  match l with
  | some lg => .returned (some lg)
  | none => .panicked nilDeref

/-! ## Domain models -/

/-- Go byte slices; a nil slice is the empty list. -/
abbrev Bytes := List UInt8

/-- The conversion `[]byte(s)`: the UTF-8 bytes of the string. -/
def bytesOf (s : String) : Bytes := s.toUTF8.data.toList

/-- Modelled from the spec: `internal/domain/models` is not under src; `models.User` is
the identity record of the data model: numeric id, email, password hash. -/
structure User where
  ID : Int
  Email : String
  PassHash : Bytes
  deriving DecidableEq, Repr

/-- Modelled from the spec: `internal/domain/models` is not under src; `models.App` is
the tenant record of the data model: numeric id, name, signing secret. -/
structure App where
  ID : Int
  Name : String
  Secret : String
  deriving DecidableEq, Repr

/-- The zero value `models.User{}`. -/
def User.zero : User := ⟨0, "", []⟩

/-- The zero value `models.App{}`. -/
def App.zero : App := ⟨0, "", ""⟩

/-! ## Collaborators -/

/-- The interface `UserSaver`. -/
structure UserSaver (σ : Type) where
  SaveUser : σ → String → Bytes → Except GoError Int × σ

/-- The interface `UserProvider`. -/
structure UserProvider (σ : Type) where
  User : σ → String → Except GoError User
  IsAdmin : σ → Int → Except GoError Bool

/-- The interface `AppProvider`. -/
structure AppProvider (σ : Type) where
  App : σ → Int → Except GoError App

/-- Package-level functions the service calls: `bcrypt.GenerateFromPassword`,
`bcrypt.CompareHashAndPassword` (nil result: the password matches the hash) and the
token issuer `jwt.NewToken(user, app, duration)`. -/
structure Libs where
  GenerateFromPassword : Bytes → Int → Except GoError Bytes
  CompareHashAndPassword : Bytes → Bytes → Option GoError
  NewToken : User → App → Int → Except GoError String

/-- The constant `bcrypt.DefaultCost`. -/
def bcryptDefaultCost : Int := 10

/-! ## The Auth service -/

/-- The struct `Auth`. -/
structure Auth (σ : Type) where
  log : Option Logger
  userSaver : UserSaver σ
  userProvide : UserProvider σ
  appProvider : AppProvider σ
  tokenTTL : Int

/-- The constructor `auth.New`. -/
def New {σ : Type} (log : Option Logger) (userSaver : UserSaver σ)
    (userProvide : UserProvider σ) (appProvider : AppProvider σ) (tokenTTL : Int) : Auth σ :=
  ⟨log, userSaver, userProvide, appProvider, tokenTTL⟩

/-- What a call of `Auth.Login` that returns has produced: the two results and the
arguments of every `jwt.NewToken` call it made, in order. -/
structure LoginOut where
  token : String
  err : Option GoError
  issuerCalls : List (User × App × Int)
  deriving DecidableEq, Repr

/-- The method `Auth.Login`. -/
def Auth.Login {σ : Type} (a : Auth σ) (L : Libs) (s : σ) (email password : String)
    (appID : Int) : Run LoginOut := do
  let op := "Auth.Login"
  let log ← Logger.With a.log
  Logger.emit log "attempting to login user"
  match a.userProvide.User s email with
  | .error err =>
    if errorsIs err .storageErrUserNotFound then
      Logger.emit a.log "user not found"
      return ⟨"", some (Errorf op ": " ErrInvalidCredentials), []⟩
    else
      Logger.emit a.log "failed to get user"
      return ⟨"", some (Errorf op ": " err), []⟩
  | .ok user =>
    match L.CompareHashAndPassword user.PassHash (bytesOf password) with
    | some _ =>
      Logger.emit a.log "invalid credentials"
      return ⟨"", some (Errorf op ": " ErrInvalidCredentials), []⟩
    | none =>
      match a.appProvider.App s appID with
      | .error err =>
        Logger.emit a.log "invalid app_id"
        return ⟨"", some (Errorf op ":" err), []⟩
      | .ok app =>
        Logger.emit a.log "user logged successfully"
        match L.NewToken user app a.tokenTTL with
        | .error err =>
          Logger.emit a.log "failed to generate token"
          return ⟨"", some (Errorf op ":" err), [(user, app, a.tokenTTL)]⟩
        | .ok token =>
          return ⟨token, none, [(user, app, a.tokenTTL)]⟩

/-- The method `Auth.RegisterNewUser`: the user id, the error, and the store after the
call. -/
def Auth.RegisterNewUser {σ : Type} (a : Auth σ) (L : Libs) (s : σ) (email pass : String) :
    Run ((Int × Option GoError) × σ) := do
  let op := "auth.RegisterNewUser"
  let log ← Logger.With a.log
  Logger.emit log "registering user"
  match L.GenerateFromPassword (bytesOf pass) bcryptDefaultCost with
  | .error err =>
    Logger.emit log "failed to generate password hash"
    return ((0, some (Errorf op ": " err)), s)
  | .ok passHash =>
    match a.userSaver.SaveUser s email passHash with
    | (.error err, s') =>
      if errorsIs err .storageErrUserExists then
        Logger.emit log "user already exists"
        return ((0, some (Errorf op ": " ErrUserExists)), s')
      else
        Logger.emit log "failed to save user"
        return ((0, some (Errorf op ": " err)), s')
    | (.ok id, s') =>
      Logger.emit log "user registered"
      return ((id, none), s')

/-- The method `Auth.IsAdmin`. -/
def Auth.IsAdmin {σ : Type} (a : Auth σ) (s : σ) (userID : Int) :
    Run (Bool × Option GoError) := do
  let op := "Auth.IsAdmin"
  let log ← Logger.With a.log
  Logger.emit log "checking if user is admin"
  match a.userProvide.IsAdmin s userID with
  | .error err =>
    if errorsIs err .storageErrAppNotFound then
      Logger.emit log "user not found"
      return (false, some (Errorf op ": " err))
    else
      Logger.emit log "failed to checking if user is admin"
      return (false, some (Errorf op ": " ErrInvalidAppID))
  | .ok isAdmin =>
    Logger.emit log "completed checking if user is admin"
    return (isAdmin, none)

/-! ## The sqlite store (`internal/storage/sqlite`) -/

namespace sqlite

/-- The struct `Storage`: a handle on the database opened at a path. -/
structure Storage where
  db : String
  deriving DecidableEq, Repr

/-- The constructor `sqlite.New`; `sql.Open` records the data source for the driver the
package registers by its import, and the error result is not modelled. -/
def New (storagePath : String) : Storage := ⟨storagePath⟩

/-- The method `Storage.SaveUser`. -/
def Storage.SaveUser (s : Storage) (_email : String) (_passHash : Bytes) :
    Except GoError Int × Storage :=
  (.ok 1, s)

/-- The method `Storage.User`. -/
def Storage.User (_s : Storage) (_email : String) : Except GoError User :=
  .ok User.zero

/-- The method `Storage.IsAdmin`. -/
def Storage.IsAdmin (_s : Storage) (_userID : Int) : Except GoError Bool :=
  .ok true

/-- The method `Storage.App`. -/
def Storage.App (_s : Storage) (_appID : Int) : Except GoError App :=
  .ok App.zero

/-- The `Storage` seen through the interface `UserSaver`. -/
def userSaver : UserSaver Storage := ⟨Storage.SaveUser⟩

/-- The `Storage` seen through the interface `UserProvider`. -/
def userProvider : UserProvider Storage := ⟨Storage.User, Storage.IsAdmin⟩

/-- The `Storage` seen through the interface `AppProvider`. -/
def appProvider : AppProvider Storage := ⟨Storage.App⟩

end sqlite

/-! ## Wiring (`internal/app`) and start-up (`cmd/sso`) -/

namespace app

/-- Modelled from the spec: `internal/app/grpc` is not under src; the transport object
made by `grpcapp.New(log, authService, port)` is kept as what it was made from. -/
structure GRPCApp where
  log : Option Logger
  authService : Auth sqlite.Storage
  port : Int

/-- The struct `app.App`. -/
structure App where
  GRPCSrv : GRPCApp

/-- The constructor `app.New`. -/
def New (log : Option Logger) (grpcPort : Int) (storagePath : String) (tokenTTL : Int) : App :=
  let _storage := sqlite.New storagePath
  let authSerive := sso.New log sqlite.userSaver sqlite.userProvider sqlite.appProvider tokenTTL
  let grpcApp : GRPCApp := ⟨log, authSerive, grpcPort⟩
  ⟨grpcApp⟩

end app

/-- The constant `envLocal`. -/
def envLocal : String := "local"

/-- The constant `envDev`. -/
def envDev : String := "dev"

/-- The constant `envProd`. -/
def envProd : String := "prod"

/-- The function `setupLogger`: a switch on `env` with no default case, so the logger
variable keeps its nil zero value when no case matches. -/
def setupLogger (env : String) : Option Logger :=
  if env = envLocal then some ⟨.text, .debug⟩
  else if env = envDev then some ⟨.json, .debug⟩
  else if env = envProd then some ⟨.text, .info⟩
  else none

/-- Modelled from the spec: `internal/config` is not under src; the loaded configuration
carries the four values `main` reads from it. -/
structure Config where
  Env : String
  StoragePath : String
  GRPCPort : Int
  TokenTTL : Int
  deriving DecidableEq, Repr

/-- The function `main` for a loaded configuration, up to and including the call of
`app.New`: set up the logger, log the start, build the application. What follows in the
source (serving in a goroutine, waiting for a signal) is not modelled. -/
def main (cfg : Config) : Run app.App := do
  let log := setupLogger cfg.Env
  Logger.emit log "starting application"
  let application := app.New log cfg.GRPCPort cfg.StoragePath cfg.TokenTTL
  return application

/-! ## A small in-memory store and toy libraries

Concrete collaborators on which the theorems below are instantiated. -/

namespace fixture

/-- The variable `storage.ErrUserNotFound`, with a text chosen here. -/
def ErrUserNotFound : GoError := .sentinel .storageErrUserNotFound "user not found"

/-- The variable `storage.ErrUserExists`, with a text chosen here. -/
def ErrUserExists : GoError := .sentinel .storageErrUserExists "user already exists"

/-- The variable `storage.ErrAppNotFound`, with a text chosen here. -/
def ErrAppNotFound : GoError := .sentinel .storageErrAppNotFound "app not found"

/-- A backend failure that is none of the store's signals. -/
def ioError : GoError := .foreign "disk I/O error"

/-- An in-memory store: users with their admin flag, apps, and whether the backend is
failing. -/
structure Mem where
  users : List (User × Bool)
  apps : List App
  down : Bool
  deriving DecidableEq, Repr

/-- Look a user record up by email. -/
def Mem.findUser (m : Mem) (email : String) : Option (User × Bool) :=
  m.users.find? (fun p => p.1.Email == email)

/-- Look a user record up by id. -/
def Mem.findID (m : Mem) (id : Int) : Option (User × Bool) :=
  m.users.find? (fun p => p.1.ID == id)

/-- The saver of the in-memory store: unique emails, ids counted from 1. -/
def memSaver : UserSaver Mem :=
  ⟨fun m email hash =>
    if m.down then (.error ioError, m)
    else match m.findUser email with
      | some _ => (.error (Errorf "storage.mem.SaveUser" ": " ErrUserExists), m)
      | none =>
        let id : Int := m.users.length + 1
        (.ok id, ⟨m.users ++ [(⟨id, email, hash⟩, false)], m.apps, m.down⟩)⟩

/-- The user provider of the in-memory store. -/
def memProvider : UserProvider Mem :=
  ⟨fun m email =>
    if m.down then .error ioError
    else match m.findUser email with
      | some p => .ok p.1
      | none => .error (Errorf "storage.mem.User" ": " ErrUserNotFound),
   fun m id =>
    if m.down then .error ioError
    else match m.findID id with
      | some p => .ok p.2
      | none => .error (Errorf "storage.mem.IsAdmin" ": " ErrAppNotFound)⟩

/-- The app provider of the in-memory store. -/
def memApps : AppProvider Mem :=
  ⟨fun m id =>
    if m.down then .error ioError
    else match m.apps.find? (fun a => a.ID == id) with
      | some a => .ok a
      | none => .error ErrAppNotFound⟩

/-- A toy stand-in for a bcrypt hash: 59 zero bytes, then the password. -/
def toyHash (pw : Bytes) : Bytes := List.replicate 59 0 ++ pw

/-- Toy libraries: hashing as `toyHash`, comparison rejecting hashes shorter than 59
bytes and hashes of another password, an issuer naming user and app. -/
def toyLibs : Libs :=
  ⟨fun pw _ => .ok (toyHash pw),
   fun hash pw =>
    if hash.length < 59 then
      some (.foreign "crypto/bcrypt: hashedSecret too short to be a bcrypted password")
    else if hash = toyHash pw then none
    else some (.foreign "crypto/bcrypt: hashedPassword is not the hash of the given password"),
   fun u a _ => .ok ("token:" ++ u.Email ++ "@" ++ a.Name)⟩

/-- Toy libraries whose issuer cannot sign. -/
def toyLibsNoKey : Libs :=
  ⟨toyLibs.GenerateFromPassword, toyLibs.CompareHashAndPassword,
   fun _ _ _ => .error (.foreign "key is of invalid type")⟩

/-- A logger as `setupLogger` makes it for the local environment. -/
def lg0 : Logger := ⟨.text, .debug⟩

/-- The user alice, id 1, password `S3cret!`, not an admin. -/
def alice : User := ⟨1, "alice@example.com", toyHash (bytesOf "S3cret!")⟩

/-- The app number 7. -/
def app7 : App := ⟨7, "shop", "k7"⟩

/-- A store holding alice and app 7. -/
def store0 : Mem := ⟨[(alice, false)], [app7], false⟩

/-- The same store after alice was made an admin. -/
def store1 : Mem := ⟨[(alice, true)], [app7], false⟩

/-- The same store with a failing backend. -/
def storeDown : Mem := ⟨[(alice, false)], [app7], true⟩

/-- A saver that fails every call with the service's own `ErrUserExists` variable and
not with the store's duplicate signal, as a fake store written against the service's
error variables does. -/
def ownSentinelSaver : UserSaver Mem :=
  ⟨fun m _ _ => (.error sso.ErrUserExists, m)⟩

/-- The Auth service over the in-memory store, token lifetime one hour (in ns). -/
def auth0 : Auth Mem := New (some lg0) memSaver memProvider memApps 3600000000000

end fixture

/-! ## Helper facts -/

namespace Run

@[simp]
theorem pure_eq {α : Type} (v : α) : (pure v : Run α) = returned v := rfl

@[simp]
theorem returned_bind {α β : Type} (v : α) (f : α → Run β) :
    (returned v >>= f) = f v := rfl

@[simp]
theorem panicked_bind {α β : Type} (why : String) (f : α → Run β) :
    ((panicked why : Run α) >>= f) = panicked why := rfl

end Run

/-- Wrapping with `fmt.Errorf` and `%w` keeps every sentinel reachable and adds none. -/
theorem errorsIs_Errorf (op sep : String) (err : GoError) (t : Sentinel) :
    errorsIs (Errorf op sep err) t = errorsIs err t := rfl

/-- The text of a wrapped error is the operation, the separator and the inner text. -/
theorem Error_Errorf (op sep : String) (err : GoError) :
    (Errorf op sep err).Error = op ++ sep ++ err.Error := rfl

/-- A wrapped error unwraps to the error it was made from. -/
theorem Unwrap_Errorf (op sep : String) (err : GoError) :
    (Errorf op sep err).Unwrap = some err := rfl

/-! ## Login -/

/-- C1. Login with an email the user store reports as not found, and Login with a known
email whose password does not match the stored hash, both return the empty token and
one and the same error value: it wraps `ErrInvalidCredentials` and reads
"Auth.Login: invalid credentials"; the token issuer is not called. -/
theorem login_invalid_credentials_indistinguishable {σ : Type} (lg : Logger)
    (us : UserSaver σ) (up : UserProvider σ) (ap : AppProvider σ) (ttl : Int) (L : Libs)
    (s : σ) (email password : String) (appID : Int) :
    ((∃ e, up.User s email = .error e ∧ errorsIs e .storageErrUserNotFound = true) ∨
       (∃ user e, up.User s email = .ok user ∧
          L.CompareHashAndPassword user.PassHash (bytesOf password) = some e) →
      (New (some lg) us up ap ttl).Login L s email password appID
        = .returned ⟨"", some (Errorf "Auth.Login" ": " ErrInvalidCredentials), []⟩) ∧
    errorsIs (Errorf "Auth.Login" ": " ErrInvalidCredentials) .authErrInvalidCredentials = true ∧
    (Errorf "Auth.Login" ": " ErrInvalidCredentials).Error = "Auth.Login: invalid credentials" := by
  refine ⟨?_, rfl, by decide⟩
  rintro (⟨e, h1, h2⟩ | ⟨user, e, h1, h2⟩)
  · simp [Auth.Login, New, Logger.With, Logger.emit, h1, h2]
  · simp [Auth.Login, New, Logger.With, Logger.emit, h1, h2]

/-- Instance of C1: on the in-memory store, an unknown email and a wrong password for
alice give the same result. -/
theorem login_invalid_credentials_indistinguishable_witness :
    fixture.auth0.Login fixture.toyLibs fixture.store0 "bob@example.com" "S3cret!" 7
      = .returned ⟨"", some (Errorf "Auth.Login" ": " ErrInvalidCredentials), []⟩ ∧
    fixture.auth0.Login fixture.toyLibs fixture.store0 "alice@example.com" "wrong" 7
      = .returned ⟨"", some (Errorf "Auth.Login" ": " ErrInvalidCredentials), []⟩ :=
  ⟨(login_invalid_credentials_indistinguishable fixture.lg0 fixture.memSaver
      fixture.memProvider fixture.memApps 3600000000000 fixture.toyLibs fixture.store0
      "bob@example.com" "S3cret!" 7).1 (Or.inl ⟨_, rfl, rfl⟩),
   (login_invalid_credentials_indistinguishable fixture.lg0 fixture.memSaver
      fixture.memProvider fixture.memApps 3600000000000 fixture.toyLibs fixture.store0
      "alice@example.com" "wrong" 7).1 (Or.inr ⟨fixture.alice, _, rfl, rfl⟩)⟩

/-- What Login does when the user resolves, the password matches and the app provider
fails with `e`: empty token, `e` wrapped under "Auth.Login:", no issuer call. -/
theorem login_app_failure {σ : Type} (lg : Logger)
    (us : UserSaver σ) (up : UserProvider σ) (ap : AppProvider σ) (ttl : Int) (L : Libs)
    (s : σ) (email password : String) (appID : Int) (user : User) (e : GoError)
    (hu : up.User s email = .ok user)
    (hpw : L.CompareHashAndPassword user.PassHash (bytesOf password) = none)
    (happ : ap.App s appID = .error e) :
    (New (some lg) us up ap ttl).Login L s email password appID
      = .returned ⟨"", some (Errorf "Auth.Login" ":" e), []⟩ := by
  simp [Auth.Login, New, Logger.With, Logger.emit, hu, hpw, happ]

/-- C2, the code at the failing input. Alice logs in with her password for app 9, which
the store does not know (`storage.ErrAppNotFound`): Login returns the empty token and
the store error wrapped under "Auth.Login:", which is not `ErrInvalidAppID` in the sense
of `errors.Is`; the issuer is not called. -/
theorem login_unknown_app_is_not_ErrInvalidAppID :
    fixture.memApps.App fixture.store0 9 = .error fixture.ErrAppNotFound ∧
    fixture.auth0.Login fixture.toyLibs fixture.store0 "alice@example.com" "S3cret!" 9
      = .returned ⟨"", some (Errorf "Auth.Login" ":" fixture.ErrAppNotFound), []⟩ ∧
    errorsIs (Errorf "Auth.Login" ":" fixture.ErrAppNotFound) .authErrInvalidAppID = false ∧
    errorsIs (Errorf "Auth.Login" ":" fixture.ErrAppNotFound) .storageErrAppNotFound = true ∧
    (Errorf "Auth.Login" ":" fixture.ErrAppNotFound).Error = "Auth.Login:app not found" := by
  refine ⟨rfl, by decide, rfl, rfl, by decide⟩

/-- C4. Login returns a nil error, or a non-empty token, only if the user lookup
succeeded, the password matched the stored hash and the app lookup succeeded; and
whenever the user lookup or the app lookup fails, Login returns the empty token with an
error and has not called the token issuer. -/
theorem login_token_only_if_resolved {σ : Type} (lg : Logger)
    (us : UserSaver σ) (up : UserProvider σ) (ap : AppProvider σ) (ttl : Int) (L : Libs)
    (s : σ) (email password : String) (appID : Int) :
    (∀ out, (New (some lg) us up ap ttl).Login L s email password appID = .returned out →
        out.err = none ∨ out.token ≠ "" →
        ∃ user app, up.User s email = .ok user ∧
          L.CompareHashAndPassword user.PassHash (bytesOf password) = none ∧
          ap.App s appID = .ok app) ∧
    ((∃ e, up.User s email = .error e) ∨ (∃ e, ap.App s appID = .error e) →
        ∃ err, (New (some lg) us up ap ttl).Login L s email password appID
          = .returned ⟨"", some err, []⟩) := by
  constructor
  · intro out hout hres
    cases hu : up.User s email with
    | error e =>
      by_cases hnf : errorsIs e .storageErrUserNotFound = true
      · simp [Auth.Login, New, Logger.With, Logger.emit, hu, hnf] at hout
        subst hout; simp at hres
      · simp [Auth.Login, New, Logger.With, Logger.emit, hu, hnf] at hout
        subst hout; simp at hres
    | ok user =>
      cases hpw : L.CompareHashAndPassword user.PassHash (bytesOf password) with
      | some e =>
        simp [Auth.Login, New, Logger.With, Logger.emit, hu, hpw] at hout
        subst hout; simp at hres
      | none =>
        cases happ : ap.App s appID with
        | error e =>
          simp [Auth.Login, New, Logger.With, Logger.emit, hu, hpw, happ] at hout
          subst hout; simp at hres
        | ok app => exact ⟨user, app, rfl, hpw, rfl⟩
  · intro h
    cases hu : up.User s email with
    | error e =>
      by_cases hnf : errorsIs e .storageErrUserNotFound = true
      · exact ⟨Errorf "Auth.Login" ": " ErrInvalidCredentials,
          by simp [Auth.Login, New, Logger.With, Logger.emit, hu, hnf]⟩
      · exact ⟨Errorf "Auth.Login" ": " e,
          by simp [Auth.Login, New, Logger.With, Logger.emit, hu, hnf]⟩
    | ok user =>
      cases hpw : L.CompareHashAndPassword user.PassHash (bytesOf password) with
      | some e =>
        exact ⟨Errorf "Auth.Login" ": " ErrInvalidCredentials,
          by simp [Auth.Login, New, Logger.With, Logger.emit, hu, hpw]⟩
      | none =>
        rcases h with ⟨e, he⟩ | ⟨e, he⟩
        · rw [hu] at he; cases he
        · exact ⟨_, login_app_failure lg us up ap ttl L s email password appID user e hu hpw he⟩

/-- Instance of C4: alice's successful login on the in-memory store goes with a resolved
user, a matching password and a resolved app; an unknown email and an unknown app each
give the empty token and no issuer call. -/
theorem login_token_only_if_resolved_witness :
    (∃ user app, fixture.memProvider.User fixture.store0 "alice@example.com" = .ok user ∧
        fixture.toyLibs.CompareHashAndPassword user.PassHash (bytesOf "S3cret!") = none ∧
        fixture.memApps.App fixture.store0 7 = .ok app) ∧
    (∃ err, fixture.auth0.Login fixture.toyLibs fixture.store0 "bob@example.com" "S3cret!" 7
        = .returned ⟨"", some err, []⟩) ∧
    (∃ err, fixture.auth0.Login fixture.toyLibs fixture.store0 "alice@example.com" "S3cret!" 9
        = .returned ⟨"", some err, []⟩) :=
  ⟨(login_token_only_if_resolved fixture.lg0 fixture.memSaver fixture.memProvider
      fixture.memApps 3600000000000 fixture.toyLibs fixture.store0
      "alice@example.com" "S3cret!" 7).1
      ⟨"token:alice@example.com@shop", none, [(fixture.alice, fixture.app7, 3600000000000)]⟩
      (by decide) (Or.inl rfl),
   (login_token_only_if_resolved fixture.lg0 fixture.memSaver fixture.memProvider
      fixture.memApps 3600000000000 fixture.toyLibs fixture.store0
      "bob@example.com" "S3cret!" 7).2 (Or.inl ⟨_, rfl⟩),
   (login_token_only_if_resolved fixture.lg0 fixture.memSaver fixture.memProvider
      fixture.memApps 3600000000000 fixture.toyLibs fixture.store0
      "alice@example.com" "S3cret!" 9).2 (Or.inr ⟨_, rfl⟩)⟩

/-- C8. When the user resolves, the password matches and the app resolves, Login calls
the token issuer once, with the resolved user, the resolved app and the lifetime given
to `auth.New`; it returns the issuer's token with a nil error when signing succeeds, and
the empty token with an error wrapping the signing failure when signing fails. -/
theorem login_delegates_to_issuer {σ : Type} (lg : Logger)
    (us : UserSaver σ) (up : UserProvider σ) (ap : AppProvider σ) (ttl : Int) (L : Libs)
    (s : σ) (email password : String) (appID : Int) (user : User) (app : App)
    (hu : up.User s email = .ok user)
    (hpw : L.CompareHashAndPassword user.PassHash (bytesOf password) = none)
    (happ : ap.App s appID = .ok app) :
    (∀ token, L.NewToken user app ttl = .ok token →
        (New (some lg) us up ap ttl).Login L s email password appID
          = .returned ⟨token, none, [(user, app, ttl)]⟩) ∧
    (∀ e, L.NewToken user app ttl = .error e →
        (New (some lg) us up ap ttl).Login L s email password appID
          = .returned ⟨"", some (Errorf "Auth.Login" ":" e), [(user, app, ttl)]⟩ ∧
        (Errorf "Auth.Login" ":" e).Unwrap = some e) := by
  constructor
  · intro token ht
    simp [Auth.Login, New, Logger.With, Logger.emit, hu, hpw, happ, ht]
  · intro e he
    refine ⟨?_, rfl⟩
    simp [Auth.Login, New, Logger.With, Logger.emit, hu, hpw, happ, he]

/-- Instance of C8: alice logs in for app 7 on the in-memory store, once with an issuer
that signs and once with an issuer that cannot. -/
theorem login_delegates_to_issuer_witness :
    fixture.auth0.Login fixture.toyLibs fixture.store0 "alice@example.com" "S3cret!" 7
      = .returned ⟨"token:alice@example.com@shop", none,
          [(fixture.alice, fixture.app7, 3600000000000)]⟩ ∧
    fixture.auth0.Login fixture.toyLibsNoKey fixture.store0 "alice@example.com" "S3cret!" 7
      = .returned ⟨"", some (Errorf "Auth.Login" ":" (.foreign "key is of invalid type")),
          [(fixture.alice, fixture.app7, 3600000000000)]⟩ :=
  ⟨(login_delegates_to_issuer fixture.lg0 fixture.memSaver fixture.memProvider
      fixture.memApps 3600000000000 fixture.toyLibs fixture.store0
      "alice@example.com" "S3cret!" 7 fixture.alice fixture.app7 rfl rfl rfl).1 _ rfl,
   ((login_delegates_to_issuer fixture.lg0 fixture.memSaver fixture.memProvider
      fixture.memApps 3600000000000 fixture.toyLibsNoKey fixture.store0
      "alice@example.com" "S3cret!" 7 fixture.alice fixture.app7 rfl rfl rfl).2 _ rfl).1⟩

/-! ## Store failures that are not a recognised signal -/

/-- C7 refuted at an input. With a failing backend the user store answers Login, and
`SaveUser` answers RegisterNewUser, with "disk I/O error", which is neither signal; the
errors the service returns read "Auth.Login: disk I/O error" and
"auth.RegisterNewUser: disk I/O error": they contain the store's raw text. -/
theorem store_failure_text_reaches_caller :
    fixture.memProvider.User fixture.storeDown "alice@example.com" = .error fixture.ioError ∧
    errorsIs fixture.ioError .storageErrUserNotFound = false ∧
    errorsIs fixture.ioError .storageErrUserExists = false ∧
    fixture.auth0.Login fixture.toyLibs fixture.storeDown "alice@example.com" "S3cret!" 7
      = .returned ⟨"", some (Errorf "Auth.Login" ": " fixture.ioError), []⟩ ∧
    containsText (Errorf "Auth.Login" ": " fixture.ioError).Error fixture.ioError.Error ∧
    fixture.auth0.RegisterNewUser fixture.toyLibs fixture.storeDown "bob@example.com" "pw"
      = .returned ((0, some (Errorf "auth.RegisterNewUser" ": " fixture.ioError)),
          fixture.storeDown) ∧
    containsText (Errorf "auth.RegisterNewUser" ": " fixture.ioError).Error
      fixture.ioError.Error := by
  refine ⟨rfl, rfl, rfl, by decide, ⟨"Auth.Login: ", "", by decide⟩, by decide,
    ⟨"auth.RegisterNewUser: ", "", by decide⟩⟩

/-- C7 as amended. A user-store failure `e` that is not the not-found signal makes Login
return `e` wrapped under its operation name; a `SaveUser` failure `e` that is not the
duplicate signal makes RegisterNewUser return id 0 and `e` wrapped under its operation
name. The wrapped error reads operation name, ": ", then the text of `e` (so it contains
that text), and unwraps to `e`. -/
theorem store_failure_is_wrapped_with_its_text {σ : Type} (lg : Logger)
    (us : UserSaver σ) (up : UserProvider σ) (ap : AppProvider σ) (ttl : Int) (L : Libs)
    (s : σ) (email password : String) (appID : Int) :
    (∀ e, up.User s email = .error e → errorsIs e .storageErrUserNotFound = false →
        (New (some lg) us up ap ttl).Login L s email password appID
          = .returned ⟨"", some (Errorf "Auth.Login" ": " e), []⟩) ∧
    (∀ hash e s', L.GenerateFromPassword (bytesOf password) bcryptDefaultCost = .ok hash →
        us.SaveUser s email hash = (.error e, s') →
        errorsIs e .storageErrUserExists = false →
        (New (some lg) us up ap ttl).RegisterNewUser L s email password
          = .returned ((0, some (Errorf "auth.RegisterNewUser" ": " e)), s')) ∧
    (∀ op e, (Errorf op ": " e).Error = op ++ ": " ++ e.Error ∧
        containsText (Errorf op ": " e).Error e.Error ∧
        (Errorf op ": " e).Unwrap = some e) := by
  refine ⟨?_, ?_, ?_⟩
  · intro e he hnf
    simp [Auth.Login, New, Logger.With, Logger.emit, he, hnf]
  · intro hash e s' hgen hsave hex
    simp [Auth.RegisterNewUser, New, Logger.With, Logger.emit, hgen, hsave, hex]
  · intro op e
    exact ⟨rfl, ⟨op ++ ": ", "", by simp [Errorf, GoError.Error]⟩, rfl⟩

/-- Instance of C7 as amended: the failing backend of the in-memory store. -/
theorem store_failure_is_wrapped_with_its_text_witness :
    fixture.auth0.Login fixture.toyLibs fixture.storeDown "alice@example.com" "S3cret!" 7
      = .returned ⟨"", some (Errorf "Auth.Login" ": " fixture.ioError), []⟩ ∧
    fixture.auth0.RegisterNewUser fixture.toyLibs fixture.storeDown "bob@example.com" "pw"
      = .returned ((0, some (Errorf "auth.RegisterNewUser" ": " fixture.ioError)),
          fixture.storeDown) :=
  ⟨(store_failure_is_wrapped_with_its_text fixture.lg0 fixture.memSaver fixture.memProvider
      fixture.memApps 3600000000000 fixture.toyLibs fixture.storeDown
      "alice@example.com" "S3cret!" 7).1 _ rfl rfl,
   (store_failure_is_wrapped_with_its_text fixture.lg0 fixture.memSaver fixture.memProvider
      fixture.memApps 3600000000000 fixture.toyLibs fixture.storeDown
      "bob@example.com" "pw" 7).2.1 _ _ _ rfl rfl rfl⟩

/-! ## RegisterNewUser -/

/-- C5 refuted at an input. `SaveUser` fails with the service's own `ErrUserExists`
variable, which is not the store's duplicate signal `storage.ErrUserExists`; hashing
succeeds; RegisterNewUser takes the branch for any other error and returns id 0 with
"auth.RegisterNewUser: user already exists", an error that is `ErrUserExists`. -/
theorem register_other_error_can_be_UserExists :
    fixture.toyLibs.GenerateFromPassword (bytesOf "pw") bcryptDefaultCost
      = .ok (fixture.toyHash (bytesOf "pw")) ∧
    fixture.ownSentinelSaver.SaveUser fixture.store0 "bob@example.com"
        (fixture.toyHash (bytesOf "pw"))
      = (.error ErrUserExists, fixture.store0) ∧
    errorsIs ErrUserExists .storageErrUserExists = false ∧
    (New (some fixture.lg0) fixture.ownSentinelSaver fixture.memProvider fixture.memApps
        3600000000000).RegisterNewUser fixture.toyLibs fixture.store0 "bob@example.com" "pw"
      = .returned ((0, some (Errorf "auth.RegisterNewUser" ": " ErrUserExists)),
          fixture.store0) ∧
    errorsIs (Errorf "auth.RegisterNewUser" ": " ErrUserExists) .authErrUserExists = true ∧
    (Errorf "auth.RegisterNewUser" ": " ErrUserExists).Error
      = "auth.RegisterNewUser: user already exists" := by
  refine ⟨rfl, rfl, rfl, by decide, rfl, by decide⟩

/-- C5 as amended. When hashing succeeds and `SaveUser` fails with `e`: if `e` is the
store's duplicate signal (`storage.ErrUserExists`, possibly wrapped), RegisterNewUser
returns id 0 and an error wrapping `ErrUserExists`; for any other `e` it returns id 0
and `e` wrapped under the operation name: an error whose text begins with the operation
name, which unwraps to `e`, and which is `ErrUserExists` exactly when `e` already is. -/
theorem register_save_failure {σ : Type} (lg : Logger)
    (us : UserSaver σ) (up : UserProvider σ) (ap : AppProvider σ) (ttl : Int) (L : Libs)
    (s s' : σ) (email pass : String) (hash : Bytes) (e : GoError)
    (hgen : L.GenerateFromPassword (bytesOf pass) bcryptDefaultCost = .ok hash)
    (hsave : us.SaveUser s email hash = (.error e, s')) :
    (errorsIs e .storageErrUserExists = true →
        (New (some lg) us up ap ttl).RegisterNewUser L s email pass
          = .returned ((0, some (Errorf "auth.RegisterNewUser" ": " ErrUserExists)), s') ∧
        errorsIs (Errorf "auth.RegisterNewUser" ": " ErrUserExists) .authErrUserExists = true) ∧
    (errorsIs e .storageErrUserExists = false →
        (New (some lg) us up ap ttl).RegisterNewUser L s email pass
          = .returned ((0, some (Errorf "auth.RegisterNewUser" ": " e)), s') ∧
        beginsWith (Errorf "auth.RegisterNewUser" ": " e).Error "auth.RegisterNewUser" ∧
        (Errorf "auth.RegisterNewUser" ": " e).Unwrap = some e ∧
        errorsIs (Errorf "auth.RegisterNewUser" ": " e) .authErrUserExists
          = errorsIs e .authErrUserExists) := by
  constructor
  · intro hex
    refine ⟨?_, rfl⟩
    simp [Auth.RegisterNewUser, New, Logger.With, Logger.emit, hgen, hsave, hex]
  · intro hex
    refine ⟨?_, ⟨": " ++ e.Error, String.append_assoc _ _ _⟩, rfl, rfl⟩
    simp [Auth.RegisterNewUser, New, Logger.With, Logger.emit, hgen, hsave, hex]

/-- Instance of C5 as amended: on the in-memory store, registering alice a second time
meets the duplicate signal, and registering with a failing backend meets
"disk I/O error", which comes back wrapped and is not `ErrUserExists`. -/
theorem register_save_failure_witness :
    (fixture.auth0.RegisterNewUser fixture.toyLibs fixture.store0 "alice@example.com" "other"
        = .returned ((0, some (Errorf "auth.RegisterNewUser" ": " ErrUserExists)),
            fixture.store0) ∧
      errorsIs (Errorf "auth.RegisterNewUser" ": " ErrUserExists) .authErrUserExists = true) ∧
    (fixture.auth0.RegisterNewUser fixture.toyLibs fixture.storeDown "bob@example.com" "pw"
        = .returned ((0, some (Errorf "auth.RegisterNewUser" ": " fixture.ioError)),
            fixture.storeDown) ∧
      beginsWith (Errorf "auth.RegisterNewUser" ": " fixture.ioError).Error
        "auth.RegisterNewUser" ∧
      (Errorf "auth.RegisterNewUser" ": " fixture.ioError).Unwrap = some fixture.ioError ∧
      errorsIs (Errorf "auth.RegisterNewUser" ": " fixture.ioError) .authErrUserExists
        = false) :=
  ⟨(register_save_failure fixture.lg0 fixture.memSaver fixture.memProvider fixture.memApps
      3600000000000 fixture.toyLibs fixture.store0 fixture.store0 "alice@example.com" "other"
      (fixture.toyHash (bytesOf "other"))
      (Errorf "storage.mem.SaveUser" ": " fixture.ErrUserExists) rfl rfl).1 rfl,
   (register_save_failure fixture.lg0 fixture.memSaver fixture.memProvider
      fixture.memApps 3600000000000 fixture.toyLibs fixture.storeDown fixture.storeDown
      "bob@example.com" "pw" (fixture.toyHash (bytesOf "pw")) fixture.ioError rfl rfl).2 rfl⟩

/-- Registering and then logging in against a store that keeps its contract: if
`SaveUser` stores the record under id `id`, the lookup by email then returns that
record, the hash compares equal to the password it was made from, and the app
resolves, then RegisterNewUser returns `id` and the following Login returns the token
issued for that user, that app and the configured lifetime. -/
theorem register_then_login_on_faithful_store {σ : Type} (lg : Logger)
    (us : UserSaver σ) (up : UserProvider σ) (ap : AppProvider σ) (ttl : Int) (L : Libs)
    (s s' : σ) (email password : String) (appID id : Int) (hash : Bytes) (app : App)
    (token : String)
    (hgen : L.GenerateFromPassword (bytesOf password) bcryptDefaultCost = .ok hash)
    (hsave : us.SaveUser s email hash = (.ok id, s'))
    (hfind : up.User s' email = .ok ⟨id, email, hash⟩)
    (hcmp : L.CompareHashAndPassword hash (bytesOf password) = none)
    (happ : ap.App s' appID = .ok app)
    (htok : L.NewToken ⟨id, email, hash⟩ app ttl = .ok token) :
    (New (some lg) us up ap ttl).RegisterNewUser L s email password
      = .returned ((id, none), s') ∧
    (New (some lg) us up ap ttl).Login L s' email password appID
      = .returned ⟨token, none, [(⟨id, email, hash⟩, app, ttl)]⟩ := by
  constructor
  · simp [Auth.RegisterNewUser, New, Logger.With, Logger.emit, hgen, hsave]
  · simp [Auth.Login, New, Logger.With, Logger.emit, hfind, hcmp, happ, htok]

/-- C3, the code on the repository's store. The service wired by `app.New` to the
sqlite `Storage`: RegisterNewUser succeeds with id 1 whenever hashing succeeds, and the
following Login with the same email and password fails with the invalid-credentials
error and no issuer call, for every bcrypt that rejects the empty hash: `Storage.User`
returns the zero user, whose hash is nil. -/
theorem register_then_login_on_sqlite_fails (lg : Logger) (grpcPort : Int)
    (storagePath : String) (ttl : Int) (L : Libs) (email password : String) (appID : Int)
    (hash : Bytes)
    (hgen : L.GenerateFromPassword (bytesOf password) bcryptDefaultCost = .ok hash)
    (hshort : ∀ pw, L.CompareHashAndPassword [] pw ≠ none) :
    (app.New (some lg) grpcPort storagePath ttl).GRPCSrv.authService.RegisterNewUser L
        (sqlite.New storagePath) email password
      = .returned ((1, none), sqlite.New storagePath) ∧
    (app.New (some lg) grpcPort storagePath ttl).GRPCSrv.authService.Login L
        (sqlite.New storagePath) email password appID
      = .returned ⟨"", some (Errorf "Auth.Login" ": " ErrInvalidCredentials), []⟩ := by
  constructor
  · simp [Auth.RegisterNewUser, app.New, New, Logger.With, Logger.emit, hgen,
      sqlite.userSaver, sqlite.Storage.SaveUser]
  · cases hc : L.CompareHashAndPassword [] (bytesOf password) with
    | none => exact absurd hc (hshort _)
    | some e =>
      simp [Auth.Login, app.New, New, Logger.With, Logger.emit, sqlite.userProvider,
        sqlite.Storage.User, User.zero, hc]

/-- Instance of C3 on the code: the scenario of the specification,
`Register("alice@example.com", "S3cret!")` then `Login` with the same credentials for
app 7, with the toy libraries. -/
theorem register_then_login_on_sqlite_fails_witness :
    (app.New (some fixture.lg0) 44044 "./storage/sso.db" 3600000000000).GRPCSrv.authService.RegisterNewUser
        fixture.toyLibs (sqlite.New "./storage/sso.db") "alice@example.com" "S3cret!"
      = .returned ((1, none), sqlite.New "./storage/sso.db") ∧
    (app.New (some fixture.lg0) 44044 "./storage/sso.db" 3600000000000).GRPCSrv.authService.Login
        fixture.toyLibs (sqlite.New "./storage/sso.db") "alice@example.com" "S3cret!" 7
      = .returned ⟨"", some (Errorf "Auth.Login" ": " ErrInvalidCredentials), []⟩ :=
  register_then_login_on_sqlite_fails fixture.lg0 44044 "./storage/sso.db" 3600000000000
    fixture.toyLibs "alice@example.com" "S3cret!" 7 (fixture.toyHash (bytesOf "S3cret!")) rfl
    (by intro pw; simp [fixture.toyLibs])

/-! ## IsAdmin -/

/-- What IsAdmin does when the store lookup fails with `e`: on the not-found signal
(`storage.ErrAppNotFound`) it returns `e` itself wrapped under the operation name; on
any other failure it returns `ErrInvalidAppID` wrapped, and `e` is dropped. -/
theorem isAdmin_failure {σ : Type} (lg : Logger)
    (us : UserSaver σ) (up : UserProvider σ) (ap : AppProvider σ) (ttl : Int)
    (s : σ) (userID : Int) (e : GoError) (he : up.IsAdmin s userID = .error e) :
    (errorsIs e .storageErrAppNotFound = true →
        (New (some lg) us up ap ttl).IsAdmin s userID
          = .returned (false, some (Errorf "Auth.IsAdmin" ": " e))) ∧
    (errorsIs e .storageErrAppNotFound = false →
        (New (some lg) us up ap ttl).IsAdmin s userID
          = .returned (false, some (Errorf "Auth.IsAdmin" ": " ErrInvalidAppID))) := by
  constructor
  · intro h
    simp [Auth.IsAdmin, New, Logger.With, Logger.emit, he, h]
  · intro h
    simp [Auth.IsAdmin, New, Logger.With, Logger.emit, he, h]

/-- C6, the code at the failing inputs. With a failing backend the admin lookup for
user 1 answers "disk I/O error", not a not-found signal, and IsAdmin returns false with
"Auth.IsAdmin: invalid app id", an error that is `ErrInvalidAppID` and does not unwrap
to the store failure. For the unknown user 5 the lookup answers the not-found signal
and IsAdmin returns false with the store error wrapped, which is not
`ErrInvalidAppID`. -/
theorem isAdmin_failure_kinds_are_swapped :
    fixture.memProvider.IsAdmin fixture.storeDown 1 = .error fixture.ioError ∧
    errorsIs fixture.ioError .storageErrAppNotFound = false ∧
    fixture.auth0.IsAdmin fixture.storeDown 1
      = .returned (false, some (Errorf "Auth.IsAdmin" ": " ErrInvalidAppID)) ∧
    errorsIs (Errorf "Auth.IsAdmin" ": " ErrInvalidAppID) .authErrInvalidAppID = true ∧
    (Errorf "Auth.IsAdmin" ": " ErrInvalidAppID).Unwrap ≠ some fixture.ioError ∧
    (Errorf "Auth.IsAdmin" ": " ErrInvalidAppID).Error = "Auth.IsAdmin: invalid app id" ∧
    fixture.memProvider.IsAdmin fixture.store0 5
      = .error (Errorf "storage.mem.IsAdmin" ": " fixture.ErrAppNotFound) ∧
    fixture.auth0.IsAdmin fixture.store0 5
      = .returned (false, some (Errorf "Auth.IsAdmin" ": "
          (Errorf "storage.mem.IsAdmin" ": " fixture.ErrAppNotFound))) ∧
    errorsIs (Errorf "Auth.IsAdmin" ": "
        (Errorf "storage.mem.IsAdmin" ": " fixture.ErrAppNotFound)) .authErrInvalidAppID
      = false := by
  refine ⟨rfl, rfl, by decide, rfl, by decide, by decide, rfl, by decide, rfl⟩

/-- C9. Whenever the store's admin lookup succeeds with `b`, IsAdmin returns `b` and a
nil error. The service keeps nothing between calls: its answer is a function of the
store state, so calls at one state `s` agree, and a call at a later state `s'` where
the lookup yields `b'` returns `b'`. -/
theorem isAdmin_reflects_store {σ : Type} (lg : Logger)
    (us : UserSaver σ) (up : UserProvider σ) (ap : AppProvider σ) (ttl : Int)
    (s s' : σ) (userID : Int) (b b' : Bool)
    (h : up.IsAdmin s userID = .ok b) (h' : up.IsAdmin s' userID = .ok b') :
    (New (some lg) us up ap ttl).IsAdmin s userID = .returned (b, none) ∧
    (New (some lg) us up ap ttl).IsAdmin s' userID = .returned (b', none) := by
  constructor
  · simp [Auth.IsAdmin, New, Logger.With, Logger.emit, h]
  · simp [Auth.IsAdmin, New, Logger.With, Logger.emit, h']

/-- Instance of C9: alice is not an admin in the first store state and is one in the
second; IsAdmin answers false, then true. -/
theorem isAdmin_reflects_store_witness :
    fixture.auth0.IsAdmin fixture.store0 1 = .returned (false, none) ∧
    fixture.auth0.IsAdmin fixture.store1 1 = .returned (true, none) :=
  isAdmin_reflects_store fixture.lg0 fixture.memSaver fixture.memProvider fixture.memApps
    3600000000000 fixture.store0 fixture.store1 1 false true rfl rfl

/-! ## Logger set-up and start-up -/

/-- C10 refuted at an input. For the empty environment name `setupLogger` returns the nil
logger, and `main` does not get as far as `app.New`: its first logging call panics on
the nil logger. -/
theorem main_empty_env_panics :
    setupLogger "" = none ∧
    main ⟨"", "./storage/sso.db", 44044, 3600000000000⟩ = .panicked nilDeref := by
  constructor
  · decide
  · rfl

/-- C10 as amended. `setupLogger` returns a non-nil logger exactly for the environment
names "local", "dev" and "prod", and the nil logger for every other name, the empty one
included. A non-nil logger is passed by `main` to `app.New`, which hands it unchanged to
the transport and to the Auth service; with the nil logger `main` panics at its first
logging call, before `app.New`. -/
theorem setupLogger_nonnil_iff_and_passed_on (cfg : Config) :
    (setupLogger cfg.Env ≠ none ↔ cfg.Env = "local" ∨ cfg.Env = "dev" ∨ cfg.Env = "prod") ∧
    setupLogger "" = none ∧
    (∀ lg, setupLogger cfg.Env = some lg →
        main cfg
          = .returned (app.New (some lg) cfg.GRPCPort cfg.StoragePath cfg.TokenTTL) ∧
        (app.New (some lg) cfg.GRPCPort cfg.StoragePath cfg.TokenTTL).GRPCSrv.log = some lg ∧
        (app.New (some lg) cfg.GRPCPort cfg.StoragePath cfg.TokenTTL).GRPCSrv.authService.log
          = some lg) ∧
    (setupLogger cfg.Env = none → main cfg = .panicked nilDeref) := by
  refine ⟨?_, by decide, ?_, ?_⟩
  · unfold setupLogger envLocal envDev envProd
    by_cases h1 : cfg.Env = "local"
    · simp [h1]
    · by_cases h2 : cfg.Env = "dev"
      · simp [h2]
      · by_cases h3 : cfg.Env = "prod"
        · simp [h3]
        · simp [h1, h2, h3]
  · intro lg h
    refine ⟨?_, rfl, rfl⟩
    simp [main, h, Logger.emit]
  · intro h
    simp [main, h, Logger.emit]

/-- Instance of C10 as amended: with the environment "dev" the JSON debug logger reaches
the Auth service; with "staging" there is no logger and the start-up panics. -/
theorem setupLogger_nonnil_iff_and_passed_on_witness :
    (app.New (setupLogger "dev") 44044 "./storage/sso.db" 3600000000000).GRPCSrv.authService.log
      = some ⟨.json, .debug⟩ ∧
    main ⟨"staging", "./storage/sso.db", 44044, 3600000000000⟩ = .panicked nilDeref :=
  ⟨((setupLogger_nonnil_iff_and_passed_on
      ⟨"dev", "./storage/sso.db", 44044, 3600000000000⟩).2.2.1 ⟨.json, .debug⟩ rfl).2.2,
   (setupLogger_nonnil_iff_and_passed_on
      ⟨"staging", "./storage/sso.db", 44044, 3600000000000⟩).2.2.2 (by decide)⟩

end sso
